import Mathlib

/-!
Shallow embedding of the serial transaction engine of `cytomat/serial_port.py`
(class `SerialPort`): the `communicate` primitive, the pure helper
`check_prefix_and_strip`, and the two typed entry points
`issue_action_command` and `issue_status_command`.

Modelling conventions:
* The serial channel is a `ChannelState`: the bytes currently buffered on the
  input side (what `port.in_waiting` reports and `port.read` consumes first),
  the list of frames written so far (each `port.write` call appends one frame),
  and the lock flag of the transaction lock.
* The bytes the device produces in reply to the written frame are passed to
  `communicate` as a list of read results: `some b` means the single-byte read
  returned the byte `b`, `none` means the read returned zero bytes because the
  configured timeout elapsed; an exhausted list also times out.
* Python exceptions become the `CommError` sum type; a call returns the pair
  of its `Except` outcome and the channel state after the call.
* Python `str` operations are character based, so they are modelled on
  `String.data` (`List Char`), matching Python slicing and prefix tests.
-/

set_option maxRecDepth 4000

deriving instance DecidableEq for Except

/-- Modelled from the spec and the exception classes imported from the missing
module `cytomat.errors` (`SerialCommunicationError`, `UnexpectedResponse`,
`InvalidCommand`), plus the Python builtins `TimeoutError`, `ValueError`,
`UnicodeEncodeError` and `UnicodeDecodeError`.
`serialCommunicationErrorFromCode` stands for
`SerialCommunicationError.from_error_code(code)`: per the spec it is a
Communication error carrying the device-reported error code.
`timeoutError` carries the command sent and the partial response buffer, the
two pieces of context interpolated into the Python `TimeoutError` message.
`valueError` carries the literal string that `int(-, base=16)` rejected. -/
inductive CommError where
  | serialCommunicationError (msg : String)
  | serialCommunicationErrorFromCode (code : Int)
  | unexpectedResponse (msg : String)
  | invalidCommand (msg : String)
  | timeoutError (command : String) (buffered : List Nat)
  | unicodeEncodeError
  | unicodeDecodeError
  | valueError (literal : String)
deriving DecidableEq, Repr

/-- Modelled from the spec: the class `PlateShuttleSystemStatus` lives in the
missing module `cytomat.status`; per the spec a Device Status is "a value
parsed from a hex string", so it is modelled as the carrier of that value. -/
structure PlateShuttleSystemStatus where
  code : Int
deriving DecidableEq, Repr

/-- The byte-oriented duplex channel plus the transaction lock.
`inputBuffer` is what `port.in_waiting` reports; `written` records each
`port.write` call as one frame; `locked` is the state of the threading lock. -/
structure ChannelState where
  inputBuffer : List Nat
  written : List (List Nat)
  locked : Bool
deriving DecidableEq, Repr

/-- The characters Python `str.strip()` removes from ASCII strings. -/
def isPySpace (c : Char) : Bool :=
  c = ' ' || c = '\t' || c = '\n' || c = '\r' || c = '\x0b' || c = '\x0c'

/-- Python `s.strip()`: drop the whitespace characters from both ends.
(Restricted to the ASCII whitespace set; responses here are ASCII.) -/
def pyStrip (s : String) : String :=
  String.mk (((s.data.dropWhile isPySpace).reverse.dropWhile isPySpace).reverse)

/-- Python `s.startswith(p)`: `p` is a character-wise prefix of `s`. -/
def pyStartsWith (s p : String) : Bool :=
  p.data.isPrefixOf s.data

/-- Python `s[n:]`: drop the first `n` characters. -/
def pyDrop (s : String) (n : Nat) : String :=
  String.mk (s.data.drop n)

/-- Python `s[a:b]`: the characters at indices `a ≤ i < b`. -/
def pySlice (s : String) (a b : Nat) : String :=
  String.mk ((s.data.drop a).take (b - a))

/-- The value of one hexadecimal digit, or `none` for a non-digit. -/
def hexVal (c : Char) : Option Nat :=
  if '0' ≤ c ∧ c ≤ '9' then some (c.toNat - 48)
  else if 'a' ≤ c ∧ c ≤ 'f' then some (c.toNat - 87)
  else if 'A' ≤ c ∧ c ≤ 'F' then some (c.toNat - 55)
  else none

/-- Base-16 value of a digit string; `none` as soon as a non-digit occurs. -/
def hexDigitsVal (cs : List Char) : Option Nat :=
  cs.foldl
    (fun acc c =>
      match acc, hexVal c with
      | some a, some v => some (16 * a + v)
      | _, _ => none)
    (some 0)

/-- Drop a leading `0x` / `0X` base marker, as Python `int(-, base=16)` does. -/
def dropHexMarker : List Char → List Char
  | '0' :: 'x' :: cs => cs
  | '0' :: 'X' :: cs => cs
  | cs => cs

/-- Modelled from the Python builtin `int(s, base=16)`: surrounding whitespace
is ignored, an optional sign and an optional `0x`/`0X` marker are accepted,
then a nonempty run of hex digits; anything else raises `ValueError`
(returns `none` here). Underscore digit separators are not modelled; device
responses never contain them. -/
def pyIntBase16 (s : String) : Option Int :=
  let signed : Int × List Char :=
    match (pyStrip s).data with
    | '+' :: cs => (1, cs)
    | '-' :: cs => (-1, cs)
    | cs => (1, cs)
  match dropHexMarker signed.2 with
  | [] => none
  | ds =>
    match hexDigitsVal ds with
    | some n => some (signed.1 * (n : Int))
    | none => none

/-- Modelled from the spec: `PlateShuttleSystemStatus.from_hex_string` of the
missing module `cytomat.status` parses a hex string into a Device Status;
an unparsable string raises `ValueError` (as `int(s, 16)` does). -/
def PlateShuttleSystemStatus.from_hex_string (s : String) :
    Except CommError PlateShuttleSystemStatus :=
  match pyIntBase16 s with
  | some n => .ok ⟨n⟩
  | none => .error (.valueError s)

/-- Python `command.encode("ascii")`: succeeds iff every character is a code
point below 128, yielding one byte per character; otherwise
`UnicodeEncodeError`. -/
def encodeAscii (s : String) : Option (List Nat) :=
  if s.data.all (fun c => c.toNat < 128) then some (s.data.map Char.toNat)
  else none

/-- Python `bytes.decode("ascii")`: succeeds iff every byte is below 128,
yielding one character per byte; otherwise `UnicodeDecodeError`. -/
def decodeAscii (bs : List Nat) : Option String :=
  if bs.all (fun b => b < 128) then some (String.mk (bs.map Char.ofNat))
  else none

/-- The read loop of `SerialPort.communicate`:
`while not raw_response.endswith(b"\r"): char = self.port.read();
raw_response += char; if not char: raise TimeoutError(...)`.
Each element of the stream is one read result (`none` = zero bytes read, the
timeout case); an exhausted stream also reads zero bytes. On success returns
the accumulated raw response (ending in the terminator byte 13) and the
unconsumed remainder of the stream; on timeout returns the partial buffer. -/
def readLoop : List (Option Nat) → List Nat → Except (List Nat) (List Nat × List (Option Nat))
  | [], acc => .error acc
  | none :: _, acc => .error acc
  | some b :: rest, acc =>
    if b = 13 then .ok (acc ++ [b], rest)
    else readLoop rest (acc ++ [b])

/-- `SerialPort.communicate(command)`. Under the lock (modelled from the spec
for the missing `cytomat.utils.lock_threading_lock`: scoped acquire/release
whose release is guaranteed on every exit path; acquisition is assumed to
succeed, its timeout being real-time behaviour outside the model):
1. if `port.in_waiting` is truthy, raise `SerialCommunicationError`;
2. `raw_command = command.encode("ascii") + b"\r"`; `port.write(raw_command)`;
3. run the read loop over the device's read results;
4. after releasing the lock, strip the trailing terminator and decode the
   remaining bytes as ASCII.
Unconsumed device bytes stay buffered on the channel's input side. -/
def communicate (command : String) (st : ChannelState) (device : List (Option Nat)) :
    Except CommError String × ChannelState :=
  let stL : ChannelState := { st with locked := true }
  if stL.inputBuffer = [] then
    match encodeAscii command with
    | none => (.error .unicodeEncodeError, { stL with locked := false })
    | some cmdBytes =>
      let raw_command : List Nat := cmdBytes ++ [13]
      let stW : ChannelState := { stL with written := stL.written ++ [raw_command] }
      match readLoop device [] with
      | .error acc => (.error (.timeoutError command acc), { stW with locked := false })
      | .ok (raw_response, rest) =>
        let stR : ChannelState :=
          { stW with inputBuffer := rest.filterMap id, locked := false }
        match decodeAscii raw_response.dropLast with
        | none => (.error .unicodeDecodeError, stR)
        | some response => (.ok response, stR)
  else
    (.error (.serialCommunicationError "There were unread bytes in the input buffer"),
      { stL with locked := false })

/-- `SerialPort.check_prefix_and_strip(response, expected_prefix)`:
`if response.startswith(expected_prefix): return response[len(expected_prefix):].strip()`
else raise `UnexpectedResponse`. -/
def check_prefix_and_strip (response expected_prefix : String) : Except CommError String :=
  if pyStartsWith response expected_prefix then
    .ok (pyStrip (pyDrop response expected_prefix.length))
  else
    .error (.unexpectedResponse
      ("Expected response prefix \x27" ++ expected_prefix ++
        "\x27, got response \x27" ++ response ++ "\x27"))

/-- `SerialPort.issue_action_command(command)`: classify the `communicate`
response; `ok` means `PlateShuttleSystemStatus.from_hex_string` of the
stripped remainder, `er` means `SerialCommunicationError.from_error_code`
of the stripped remainder parsed with `int(-, base=16)`, anything else
raises `UnexpectedResponse`. -/
def issue_action_command (command : String) (st : ChannelState) (device : List (Option Nat)) :
    Except CommError PlateShuttleSystemStatus × ChannelState :=
  match communicate command st device with
  | (.error e, st1) => (.error e, st1)
  | (.ok response, st1) =>
    if pyStartsWith response "ok" then
      match check_prefix_and_strip response "ok" with
      | .error e => (.error e, st1)
      | .ok stripped => (PlateShuttleSystemStatus.from_hex_string stripped, st1)
    else if pyStartsWith response "er" then
      match check_prefix_and_strip response "er" with
      | .error e => (.error e, st1)
      | .ok stripped =>
        match pyIntBase16 stripped with
        | some code => (.error (.serialCommunicationErrorFromCode code), st1)
        | none => (.error (.valueError stripped), st1)
    else
      (.error (.unexpectedResponse
        ("Expected response like \x27ok XX\x27 or \x27er XX\x27, got \x27" ++
          response ++ "\x27")), st1)

/-- `re.fullmatch("ch:[a-z]" ++ "(2 times)" ++ ".*", command)` of
`issue_status_command`: the literal characters `c`, `h`, `:`, then exactly two
ASCII lowercase letters, then a trailer every character of which matches `.`,
which in Python does not match a newline. -/
def matchesStatusCommandShape (command : String) : Bool :=
  match command.data with
  | c1 :: c2 :: c3 :: a :: b :: rest =>
    c1 = 'c' && c2 = 'h' && c3 = ':' &&
      ('a' ≤ a && a ≤ 'z') && ('a' ≤ b && b ≤ 'z') && rest.all (fun c => c ≠ '\n')
  | _ => false

/-- `SerialPort.issue_status_command(command)`: reject commands not matching
the status-command shape with `InvalidCommand` before any channel I/O, else
return `check_prefix_and_strip(communicate(command), command[3:5])`. -/
def issue_status_command (command : String) (st : ChannelState) (device : List (Option Nat)) :
    Except CommError String × ChannelState :=
  if matchesStatusCommandShape command then
    match communicate command st device with
    | (.error e, st1) => (.error e, st1)
    | (.ok response, st1) => (check_prefix_and_strip response (pySlice command 3 5), st1)
  else
    (.error (.invalidCommand
      ("Expected command like \x27ch:xx\x27 or \x27ch:xx ...\x27, got \x27" ++
        command ++ "\x27")), st)

/-! ## Helper lemmas -/

lemma charOfNat_toNat (b : Nat) (hb : b < 128) : (Char.ofNat b).toNat = b := by
  have hv : b.isValidChar := Or.inl (by omega)
  simp [Char.ofNat, hv, Char.ofNatAux, Char.toNat, UInt32.toNat, BitVec.toNat_ofNatLt]

lemma charOfNat_ne_cr (b : Nat) (hb13 : b ≠ 13) (hb : b < 128) :
    Char.ofNat b ≠ '\r' := by
  intro h
  apply hb13
  have := charOfNat_toNat b hb
  rw [h] at this
  simpa using this.symm

lemma encodeAscii_eq_some (s : String) (h : ∀ c ∈ s.data, c.toNat < 128) :
    encodeAscii s = some (s.data.map Char.toNat) := by
  unfold encodeAscii
  rw [if_pos]
  rw [List.all_eq_true]
  intro c hc
  simpa using h c hc

lemma encodeAscii_eq_none (s : String) (h : ¬ ∀ c ∈ s.data, c.toNat < 128) :
    encodeAscii s = none := by
  unfold encodeAscii
  rw [if_neg]
  intro hall
  apply h
  rw [List.all_eq_true] at hall
  intro c hc
  simpa using hall c hc

lemma decodeAscii_eq_some (bs : List Nat) (h : ∀ b ∈ bs, b < 128) :
    decodeAscii bs = some (String.mk (bs.map Char.ofNat)) := by
  unfold decodeAscii
  rw [if_pos]
  rw [List.all_eq_true]
  intro b hb
  simpa using h b hb

lemma readLoop_terminator (pre : List Nat) (rest : List (Option Nat)) (acc : List Nat)
    (hpre : ∀ b ∈ pre, b ≠ 13) :
    readLoop (pre.map some ++ some 13 :: rest) acc = .ok (acc ++ pre ++ [13], rest) := by
  induction pre generalizing acc with
  | nil => simp [readLoop]
  | cons b bs ih =>
    have hb : b ≠ 13 := hpre b (List.mem_cons_self b bs)
    have ih2 := ih (acc ++ [b]) (fun x hx => hpre x (List.mem_cons_of_mem b hx))
    simp only [List.map_cons, List.cons_append, readLoop, if_neg hb, List.append_eq]
    rw [ih2]
    simp

lemma readLoop_dropout (pre : List Nat) (rest : List (Option Nat)) (acc : List Nat)
    (hpre : ∀ b ∈ pre, b ≠ 13) :
    readLoop (pre.map some ++ none :: rest) acc = .error (acc ++ pre) := by
  induction pre generalizing acc with
  | nil => simp [readLoop]
  | cons b bs ih =>
    have hb : b ≠ 13 := hpre b (List.mem_cons_self b bs)
    have ih2 := ih (acc ++ [b]) (fun x hx => hpre x (List.mem_cons_of_mem b hx))
    simp only [List.map_cons, List.cons_append, readLoop, if_neg hb, List.append_eq]
    rw [ih2]
    simp

lemma readLoop_exhausted (pre : List Nat) (acc : List Nat)
    (hpre : ∀ b ∈ pre, b ≠ 13) :
    readLoop (pre.map some) acc = .error (acc ++ pre) := by
  induction pre generalizing acc with
  | nil => simp [readLoop]
  | cons b bs ih =>
    have hb : b ≠ 13 := hpre b (List.mem_cons_self b bs)
    have ih2 := ih (acc ++ [b]) (fun x hx => hpre x (List.mem_cons_of_mem b hx))
    simp only [List.map_cons, readLoop, if_neg hb, List.append_eq]
    rw [ih2]
    simp

/-- Successful transaction, in closed form: empty input buffer, ASCII command,
device stream holding an ASCII carriage-return-free payload, the terminator,
then arbitrary further read results. -/
lemma communicate_ok (command : String) (st : ChannelState) (pre : List Nat)
    (rest : List (Option Nat)) (hbuf : st.inputBuffer = [])
    (hascii : ∀ c ∈ command.data, c.toNat < 128)
    (hpre : ∀ b ∈ pre, b ≠ 13 ∧ b < 128) :
    communicate command st (pre.map some ++ some 13 :: rest) =
      (.ok (String.mk (pre.map Char.ofNat)),
       { inputBuffer := rest.filterMap id,
         written := st.written ++ [command.data.map Char.toNat ++ [13]],
         locked := false }) := by
  have henc := encodeAscii_eq_some command hascii
  have hrl := readLoop_terminator pre rest [] (fun b hb => (hpre b hb).1)
  have hdec := decodeAscii_eq_some pre (fun b hb => (hpre b hb).2)
  unfold communicate
  simp only [hbuf, if_pos, henc, hrl, List.nil_append]
  have hdrop : (pre ++ [13]).dropLast = pre := by simp
  simp [hdrop, hdec]

/-! ## Claim theorems -/

/-- C1: for every ASCII command string without carriage return, called with no
stale bytes buffered, when every single-byte read yields a byte up to the
first carriage-return terminator, `communicate` writes exactly the ASCII
encoding of the command followed by one carriage-return byte (13) as a single
write operation, and returns the bytes read up to but excluding that first
carriage return, decoded as ASCII. -/
theorem communicate_framing_roundtrip (command : String) (st : ChannelState)
    (pre : List Nat) (rest : List (Option Nat))
    (hascii : ∀ c ∈ command.data, c.toNat < 128)
    (_hnocr : ∀ c ∈ command.data, c ≠ '\r')
    (hbuf : st.inputBuffer = [])
    (hpre : ∀ b ∈ pre, b ≠ 13 ∧ b < 128) :
    (communicate command st (pre.map some ++ some 13 :: rest)).fst =
        .ok (String.mk (pre.map Char.ofNat)) ∧
    (communicate command st (pre.map some ++ some 13 :: rest)).snd.written =
        st.written ++ [command.data.map Char.toNat ++ [13]] := by
  have h := communicate_ok command st pre rest hbuf hascii hpre
  rw [h]
  exact ⟨rfl, rfl⟩

theorem communicate_framing_roundtrip_witness :
    (communicate "ab" ⟨[], [], false⟩ ([111, 107].map some ++ some 13 :: [])).fst =
        .ok (String.mk ([111, 107].map Char.ofNat)) ∧
    (communicate "ab" ⟨[], [], false⟩ ([111, 107].map some ++ some 13 :: [])).snd.written =
        [] ++ ["ab".data.map Char.toNat ++ [13]] :=
  communicate_framing_roundtrip "ab" ⟨[], [], false⟩ [111, 107] []
    (by decide) (by decide) rfl (by decide)

/-- C3: if the channel reports unread bytes buffered at call start,
`communicate` fails with the stale-data Communication error, writes no bytes,
and consumes none of the buffered bytes (only the lock flag changes). -/
theorem communicate_stale_rejection (command : String) (st : ChannelState)
    (device : List (Option Nat)) (hne : st.inputBuffer ≠ []) :
    communicate command st device =
      (.error (.serialCommunicationError "There were unread bytes in the input buffer"),
        { st with locked := false }) ∧
    (communicate command st device).snd.written = st.written ∧
    (communicate command st device).snd.inputBuffer = st.inputBuffer := by
  have h : communicate command st device =
      (.error (.serialCommunicationError "There were unread bytes in the input buffer"),
        { st with locked := false }) := by
    unfold communicate
    simp [hne]
  exact ⟨h, by rw [h], by rw [h]⟩

theorem communicate_stale_rejection_witness :
    communicate "ab" ⟨[65], [], false⟩ [some 1] =
      (.error (.serialCommunicationError "There were unread bytes in the input buffer"),
        { (⟨[65], [], false⟩ : ChannelState) with locked := false }) ∧
    (communicate "ab" ⟨[65], [], false⟩ [some 1]).snd.written =
        (⟨[65], [], false⟩ : ChannelState).written ∧
    (communicate "ab" ⟨[65], [], false⟩ [some 1]).snd.inputBuffer =
        (⟨[65], [], false⟩ : ChannelState).inputBuffer :=
  communicate_stale_rejection "ab" ⟨[65], [], false⟩ [some 1] (by decide)

/-- C4: if a single-byte read yields zero bytes before the terminator arrives
(`none` in the stream, or the stream exhausted), `communicate` fails with a
Timeout error carrying the original command and the partial response buffer
accumulated so far (possibly empty), and returns no response. -/
theorem communicate_timeout_reports (command : String) (st : ChannelState)
    (pre : List Nat) (rest : List (Option Nat))
    (hbuf : st.inputBuffer = [])
    (hascii : ∀ c ∈ command.data, c.toNat < 128)
    (hpre : ∀ b ∈ pre, b ≠ 13) :
    (communicate command st (pre.map some ++ none :: rest)).fst =
        .error (.timeoutError command pre) ∧
    (communicate command st (pre.map some)).fst =
        .error (.timeoutError command pre) := by
  have henc := encodeAscii_eq_some command hascii
  have h1 := readLoop_dropout pre rest [] hpre
  have h2 := readLoop_exhausted pre [] hpre
  constructor
  · unfold communicate
    simp [hbuf, henc, h1]
  · unfold communicate
    simp [hbuf, henc, h2]

theorem communicate_timeout_reports_witness :
    (communicate "a" ⟨[], [], false⟩ (([] : List Nat).map some ++ none :: [])).fst =
        .error (.timeoutError "a" []) ∧
    (communicate "a" ⟨[], [], false⟩ (([] : List Nat).map some)).fst =
        .error (.timeoutError "a" []) :=
  communicate_timeout_reports "a" ⟨[], [], false⟩ [] [] rfl (by decide) (by decide)

/-- C7: every exit path of `communicate` — stale-buffer error, encode failure,
write then read timeout, decode failure, or success — leaves the transaction
lock unlocked. -/
theorem communicate_always_releases_lock (command : String) (st : ChannelState)
    (device : List (Option Nat)) :
    (communicate command st device).snd.locked = false := by
  unfold communicate
  dsimp only
  split
  · split
    · rfl
    · split
      · rfl
      · split <;> rfl
  · rfl

/-- C10: for a command containing a non-ASCII character, `communicate` called
with an empty input buffer passes the stale-buffer check, then fails with the
encoding error before writing any bytes: the written frames and input buffer
are unchanged and the lock is released. -/
theorem communicate_nonascii_command (command : String) (st : ChannelState)
    (device : List (Option Nat))
    (hbuf : st.inputBuffer = [])
    (hnon : ¬ ∀ c ∈ command.data, c.toNat < 128) :
    communicate command st device = (.error .unicodeEncodeError, { st with locked := false }) := by
  have henc := encodeAscii_eq_none command hnon
  unfold communicate
  simp [hbuf, henc]

theorem communicate_nonascii_command_witness :
    communicate "é" ⟨[], [], false⟩ [] =
      (.error .unicodeEncodeError, { (⟨[], [], false⟩ : ChannelState) with locked := false }) :=
  communicate_nonascii_command "é" ⟨[], [], false⟩ [] rfl (by decide)

/-- C6: `check_prefix_and_strip` is a pure function of its two arguments (its
embedding takes no channel state, so it cannot touch channel or lock, and as a
function it returns the same output or the same error on repeated calls).
When the response starts with the expected prefix it returns the remainder
after the prefix with surrounding whitespace stripped; otherwise it returns
the Unexpected-Response error naming both the expected prefix and the actual
response. -/
theorem check_prefix_and_strip_pure (response p : String) (t : List Char) :
    (response.data = p.data ++ t →
        check_prefix_and_strip response p = .ok (pyStrip (String.mk t))) ∧
    (¬ p.data <+: response.data →
        check_prefix_and_strip response p =
          .error (.unexpectedResponse
            ("Expected response prefix \x27" ++ p ++ "\x27, got response \x27" ++
              response ++ "\x27"))) := by
  constructor
  · intro h
    have hps : pyStartsWith response p = true := by
      unfold pyStartsWith
      rw [List.isPrefixOf_iff_prefix]
      exact ⟨t, h.symm⟩
    have hdrop : pyDrop response p.length = String.mk t := by
      unfold pyDrop
      congr 1
      rw [h, show p.length = p.data.length from rfl]
      exact List.drop_left p.data t
    unfold check_prefix_and_strip
    rw [if_pos hps, hdrop]
  · intro h
    have hps : ¬ (pyStartsWith response p = true) := by
      unfold pyStartsWith
      rw [List.isPrefixOf_iff_prefix]
      exact h
    unfold check_prefix_and_strip
    rw [if_neg hps]

theorem check_prefix_and_strip_pure_witness :
    check_prefix_and_strip "ok 05" "ok" = .ok (pyStrip (String.mk [' ', '0', '5'])) ∧
    check_prefix_and_strip "xy" "ok" =
      .error (.unexpectedResponse
        ("Expected response prefix \x27ok\x27, got response \x27xy\x27")) :=
  ⟨(check_prefix_and_strip_pure "ok 05" "ok" [' ', '0', '5']).1 (by decide),
    (check_prefix_and_strip_pure "xy" "ok" []).2 (by decide)⟩

/-- C2: `issue_action_command` classifies the response of `communicate`: a
response starting with `ok` yields the Device Status parsed from the
prefix-stripped remainder as a hex string; one starting with `er` yields the
Communication error carrying the prefix-stripped remainder parsed as a
base-16 integer; any other response yields the Unexpected-Response error
quoting the raw response. -/
theorem issue_action_command_classification (command r : String) (st : ChannelState)
    (device : List (Option Nat))
    (hr : (communicate command st device).fst = .ok r) :
    (pyStartsWith r "ok" = true →
        (issue_action_command command st device).fst =
          PlateShuttleSystemStatus.from_hex_string (pyStrip (pyDrop r 2))) ∧
    (pyStartsWith r "ok" = false → pyStartsWith r "er" = true →
        ∀ code : Int, pyIntBase16 (pyStrip (pyDrop r 2)) = some code →
          (issue_action_command command st device).fst =
            .error (.serialCommunicationErrorFromCode code)) ∧
    (pyStartsWith r "ok" = false → pyStartsWith r "er" = false →
        (issue_action_command command st device).fst =
          .error (.unexpectedResponse
            ("Expected response like \x27ok XX\x27 or \x27er XX\x27, got \x27" ++
              r ++ "\x27"))) := by
  have hpair : communicate command st device = (.ok r, (communicate command st device).snd) := by
    rw [← hr]
  refine ⟨?_, ?_, ?_⟩
  · intro hok
    have hcps : check_prefix_and_strip r "ok" = .ok (pyStrip (pyDrop r 2)) := by
      unfold check_prefix_and_strip
      rw [if_pos hok]
      rfl
    unfold issue_action_command
    rw [hpair]
    simp only [hok, if_true, hcps]
  · intro hnok her code hcode
    have hcps : check_prefix_and_strip r "er" = .ok (pyStrip (pyDrop r 2)) := by
      unfold check_prefix_and_strip
      rw [if_pos her]
      rfl
    unfold issue_action_command
    rw [hpair]
    simp only [hnok, her, if_true, if_false, Bool.false_eq_true, hcps, hcode]
  · intro hnok hner
    unfold issue_action_command
    rw [hpair]
    simp only [hnok, hner, if_false, Bool.false_eq_true]

theorem issue_action_command_classification_witness :
    (issue_action_command "go" ⟨[], [], false⟩
        ([111, 107, 32, 48, 53].map some ++ [some 13])).fst = .ok ⟨5⟩ ∧
    (issue_action_command "go" ⟨[], [], false⟩
        ([101, 114, 32, 49, 65].map some ++ [some 13])).fst =
      .error (.serialCommunicationErrorFromCode 26) ∧
    (issue_action_command "go" ⟨[], [], false⟩
        ([120, 121, 122].map some ++ [some 13])).fst =
      .error (.unexpectedResponse
        ("Expected response like \x27ok XX\x27 or \x27er XX\x27, got \x27xyz\x27")) := by
  refine ⟨?_, ?_, ?_⟩
  · have h := (issue_action_command_classification "go" "ok 05" ⟨[], [], false⟩
        ([111, 107, 32, 48, 53].map some ++ [some 13]) (by decide)).1 (by decide)
    rw [h]
    decide
  · exact (issue_action_command_classification "go" "er 1A" ⟨[], [], false⟩
        ([101, 114, 32, 49, 65].map some ++ [some 13]) (by decide)).2.1
        (by decide) (by decide) 26 (by decide)
  · exact (issue_action_command_classification "go" "xyz" ⟨[], [], false⟩
        ([120, 121, 122].map some ++ [some 13]) (by decide)).2.2 (by decide) (by decide)

/-- C8: for a command whose response is `er zz` (bytes 101 114 32 122 122 13),
whose remainder after prefix-and-whitespace stripping is not a valid base-16
numeral, `issue_action_command` fails with the `ValueError` of integer
parsing, not with a Communication or Unexpected-Response error of the
documented taxonomy. -/
theorem issue_action_command_value_error_leak :
    (issue_action_command "mv:plate" ⟨[], [], false⟩
        ([101, 114, 32, 122, 122].map some ++ [some 13])).fst =
      .error (.valueError "zz") := by
  decide

/-- C9: for a successful `communicate` call, exactly the bytes up to and
including the first carriage return are consumed, the returned string
contains no carriage return, the bytes the device sent after that first
terminator remain buffered unchanged, and when any such bytes remain the
next transaction fails with the stale-buffer Communication error. -/
theorem communicate_exact_consumption (command : String) (st : ChannelState)
    (pre post : List Nat)
    (hascii : ∀ c ∈ command.data, c.toNat < 128)
    (hbuf : st.inputBuffer = [])
    (hpre : ∀ b ∈ pre, b ≠ 13 ∧ b < 128) :
    (communicate command st (pre.map some ++ some 13 :: post.map some)).fst =
        .ok (String.mk (pre.map Char.ofNat)) ∧
    (∀ c ∈ (String.mk (pre.map Char.ofNat)).data, c ≠ '\r') ∧
    (communicate command st (pre.map some ++ some 13 :: post.map some)).snd.inputBuffer =
        post ∧
    (post ≠ [] → ∀ (command2 : String) (device2 : List (Option Nat)),
      (communicate command2
          (communicate command st (pre.map some ++ some 13 :: post.map some)).snd
          device2).fst =
        .error (.serialCommunicationError "There were unread bytes in the input buffer")) := by
  have h := communicate_ok command st pre (post.map some) hbuf hascii hpre
  have hfm : (post.map some).filterMap id = post := by simp
  refine ⟨by rw [h], ?_, by rw [h]; exact hfm, ?_⟩
  · intro c hc
    rw [show (String.mk (pre.map Char.ofNat)).data = pre.map Char.ofNat from rfl] at hc
    obtain ⟨b, hb, rfl⟩ := List.mem_map.mp hc
    exact charOfNat_ne_cr b (hpre b hb).1 (hpre b hb).2
  · intro hpost command2 device2
    rw [h]
    unfold communicate
    simp [hfm, hpost]

theorem communicate_exact_consumption_witness :
    (communicate "a" ⟨[], [], false⟩ ([98].map some ++ some 13 :: [49].map some)).fst =
        .ok (String.mk ([98].map Char.ofNat)) ∧
    (∀ c ∈ (String.mk ([98].map Char.ofNat)).data, c ≠ '\r') ∧
    (communicate "a" ⟨[], [], false⟩ ([98].map some ++ some 13 :: [49].map some)).snd.inputBuffer =
        [49] ∧
    ([49] ≠ ([] : List Nat) → ∀ (command2 : String) (device2 : List (Option Nat)),
      (communicate command2
          (communicate "a" ⟨[], [], false⟩ ([98].map some ++ some 13 :: [49].map some)).snd
          device2).fst =
        .error (.serialCommunicationError "There were unread bytes in the input buffer")) :=
  communicate_exact_consumption "a" ⟨[], [], false⟩ [98] [49]
    (by decide) rfl (by decide)

/-- The status-command shape, characterised: the literal characters `ch:`,
exactly two ASCII lowercase letters, then a trailer with no newline (Python
regex `.` does not match a newline, and `re.fullmatch` must cover the whole
command). -/
lemma matchesStatusCommandShape_iff (command : String) :
    matchesStatusCommandShape command = true ↔
      ∃ a b t, command.data = 'c' :: 'h' :: ':' :: a :: b :: t ∧
        'a' ≤ a ∧ a ≤ 'z' ∧ 'a' ≤ b ∧ b ≤ 'z' ∧ ∀ c ∈ t, c ≠ '\n' := by
  unfold matchesStatusCommandShape
  rcases hd : command.data with _ | ⟨c1, _ | ⟨c2, _ | ⟨c3, _ | ⟨a, _ | ⟨b, t⟩⟩⟩⟩⟩ <;>
    simp [List.all_eq_true]
  constructor
  · rintro ⟨⟨⟨⟨⟨rfl, rfl⟩, rfl⟩, ha1, ha2⟩, hb1, hb2⟩, ht⟩
    exact ⟨a, b, t, ⟨rfl, rfl, rfl, rfl, rfl, rfl⟩, ha1, ha2, hb1, hb2, ht⟩
  · rintro ⟨a2, b2, t2, ⟨rfl, rfl, rfl, rfl, rfl, rfl⟩, ha1, ha2, hb1, hb2, ht⟩
    exact ⟨⟨⟨⟨⟨rfl, rfl⟩, rfl⟩, ha1, ha2⟩, hb1, hb2⟩, ht⟩

/-- C5 (amended): `issue_status_command` raises the Invalid-Command error
without performing any channel I/O when the command does not consist of
`ch:` followed by exactly two lowercase letters and an optional trailer
containing no newline character; when the command does match, it calls
`communicate(command)` and, when that returns a response, strips the
expected prefix equal to the two-letter channel code at characters 4 and 5
of the command. -/
theorem issue_status_command_validation (command : String) (st : ChannelState)
    (device : List (Option Nat)) :
    ((¬ ∃ a b t, command.data = 'c' :: 'h' :: ':' :: a :: b :: t ∧
        'a' ≤ a ∧ a ≤ 'z' ∧ 'a' ≤ b ∧ b ≤ 'z' ∧ ∀ c ∈ t, c ≠ '\n') →
      issue_status_command command st device =
        (.error (.invalidCommand
          ("Expected command like \x27ch:xx\x27 or \x27ch:xx ...\x27, got \x27" ++
            command ++ "\x27")), st)) ∧
    (∀ a b t, command.data = 'c' :: 'h' :: ':' :: a :: b :: t →
      'a' ≤ a → a ≤ 'z' → 'a' ≤ b → b ≤ 'z' → (∀ c ∈ t, c ≠ '\n') →
      ∀ r, (communicate command st device).fst = .ok r →
        (issue_status_command command st device).fst =
          check_prefix_and_strip r (String.mk [a, b])) := by
  constructor
  · intro h
    have hm : ¬ (matchesStatusCommandShape command = true) := fun hc =>
      h ((matchesStatusCommandShape_iff command).mp hc)
    unfold issue_status_command
    rw [if_neg hm]
  · intro a b t hd ha1 ha2 hb1 hb2 ht r hr
    have hm : matchesStatusCommandShape command = true :=
      (matchesStatusCommandShape_iff command).mpr ⟨a, b, t, hd, ha1, ha2, hb1, hb2, ht⟩
    have hpair : communicate command st device =
        (.ok r, (communicate command st device).snd) := by
      rw [← hr]
    have hslice : pySlice command 3 5 = String.mk [a, b] := by
      unfold pySlice
      rw [hd]
      rfl
    unfold issue_status_command
    rw [if_pos hm, hpair, hslice]

theorem issue_status_command_validation_witness :
    (issue_status_command "ch:bs" ⟨[], [], false⟩
        ([98, 115, 32, 48, 49].map some ++ [some 13])).fst = .ok "01" := by
  have h := (issue_status_command_validation "ch:bs" ⟨[], [], false⟩
      ([98, 115, 32, 48, 49].map some ++ [some 13])).2
      'b' 's' [] (by decide) (by decide) (by decide) (by decide) (by decide)
      (by simp) "bs 01" (by decide)
  rw [h]
  decide

/-- C5 (counterexample to the claim as stated): the command made of `ch:`,
the two lowercase letters `a` and `b`, and the trailer consisting of one
newline character has the shape the claim accepts, yet `issue_status_command`
raises the Invalid-Command error instead of calling `communicate`. -/
theorem issue_status_command_newline_counterexample :
    ("ch:ab\n".data = 'c' :: 'h' :: ':' :: 'a' :: 'b' :: ['\n'] ∧
      'a' ≤ 'a' ∧ 'a' ≤ 'z' ∧ 'a' ≤ 'b' ∧ 'b' ≤ 'z') ∧
    (issue_status_command "ch:ab\n" ⟨[], [], false⟩ []).fst =
      .error (.invalidCommand
        ("Expected command like \x27ch:xx\x27 or \x27ch:xx ...\x27, got \x27ch:ab\n\x27")) := by
  decide
